import Mathlib

/-!
Verification of the MRD time-tag manager's time-window lifecycle engine.

The development shallowly embeds the time-policy resolver (`calculateTimes`),
the lifecycle classifier (`getTagStatus`), and the alert scheduler's tick,
front-selection, dismissal, and acknowledgment steps from the React/TypeScript
source.  Instants are modelled as integer milliseconds since the epoch
(the source stores ISO strings and compares `Date` values, which is the same
total order); calendar arithmetic for the start-of-day / end-of-day policies is
modelled in a fixed UTC-like zone, duration arithmetic is exact as in the
source.  Display-only fields of notification events (title, message,
human-readable time remaining, location name) are omitted; every field that any
control-flow decision or claim reads is kept.
-/

namespace Mrd

/-- Derived tag status, as produced by `getTagStatus` in ActiveTagsDashboard. -/
inductive TagStatus where
  | expired
  | expiring
  | preparing
  | ready
deriving DecidableEq

/-- Notification severity, the `type` field of `NotificationData`. -/
inductive NotifType where
  | warning
  | critical
deriving DecidableEq

/-- A product's time-policy kind (`timeType` in the source). -/
inductive TimeType where
  | hours
  | start_of_day
  | end_of_day
deriving DecidableEq

/-- date-fns `differenceInMinutes(laterDate, earlierDate)`: the signed number
of whole minutes between two instants, truncated toward zero. -/
def differenceInMinutes (laterDate earlierDate : Int) : Int :=
  let ms := laterDate - earlierDate
  if ms < 0 then -(((-ms).toNat / 60000 : Nat) : Int) else (((ms).toNat / 60000 : Nat) : Int)

/-- date-fns `addMinutes`. -/
def addMinutes (t m : Int) : Int := t + m * 60000

/-- date-fns `addDays` (calendar days modelled as fixed 24h days in a
fixed-offset zone). -/
def addDays (t d : Int) : Int := t + d * 86400000

/-- date-fns `startOfDay`: midnight of the instant's calendar date. -/
def dateStartOfDay (t : Int) : Int := 86400000 * (t.fdiv 86400000)

/-- date-fns `endOfDay`: 23:59:59.999 of the instant's calendar date. -/
def dateEndOfDay (t : Int) : Int := dateStartOfDay t + 86399999

/-- The lifecycle classifier `getTagStatus` from ActiveTagsDashboard:
`isAfter(now, discardTime)` is the strict comparison `discardTime < now`,
`isBefore(now, readyTime)` is `now < readyTime`. -/
def getTagStatus (readyTime discardTime now : Int) : TagStatus :=
  let minutesToDiscard := differenceInMinutes discardTime now
  if discardTime < now then .expired
  else if minutesToDiscard ≤ 30 then .expiring
  else if now < readyTime then .preparing
  else .ready

/-- A product record; only the fields the core engine reads. -/
structure Product where
  id : String
  name : String
  timeType : TimeType
  readyTimeMinutes : Int
  discardTimeMinutes : Int
  dayOffset : Option Int
deriving DecidableEq

/-- The time-policy resolver `calculateTimes` from CreateTag: `none` models the
`{ readyTime: null, discardTime: null }` result returned when no product is
selected. -/
def calculateTimes (selectedProduct : Option Product) (madeTime : Int) :
    Option (Int × Int) :=
  match selectedProduct with
  | none => none
  | some p =>
    match p.timeType with
    | .hours =>
        some (addMinutes madeTime p.readyTimeMinutes,
              addMinutes madeTime p.discardTimeMinutes)
    | .start_of_day =>
        let targetDay := addDays madeTime (p.dayOffset.getD 0)
        some (dateStartOfDay targetDay, dateStartOfDay targetDay)
    | .end_of_day =>
        let targetDay := addDays madeTime (p.dayOffset.getD 0)
        some (dateEndOfDay targetDay, dateEndOfDay targetDay)

/-- The product form state in ProductManagement's save dialog. -/
structure ProductFormData where
  readyTimeHours : Int
  readyTimeMinutes : Int
  discardTimeHours : Int
  discardTimeMinutes : Int
  timeType : TimeType
  dayOffset : Int
deriving DecidableEq

/-- The policy part of the record saved by ProductManagement's `handleSave`. -/
structure ProductData where
  readyTimeMinutes : Int
  discardTimeMinutes : Int
  timeType : TimeType
  dayOffset : Int
deriving DecidableEq

/-- ProductManagement `handleSave`: builds the product record and stores it
unconditionally; the function is total, no validation branch exists. -/
def handleSaveProductData (f : ProductFormData) : ProductData :=
  { readyTimeMinutes := f.readyTimeHours * 60 + f.readyTimeMinutes
    discardTimeMinutes := f.discardTimeHours * 60 + f.discardTimeMinutes
    timeType := f.timeType
    dayOffset := f.dayOffset }

/-! ## Claims about the classifier and the resolver -/

/-- C1 counterexample: at `now = discardAt` exactly (ready 0, discard 1000,
now 1000) the classifier returns `expiring`, not `expired`, although
`now ≥ discardAt`; the claim's "expired iff now ≥ discardAt" is false. -/
theorem getTagStatus_claim_boundary_cex :
    (1000 : Int) ≥ 1000 ∧ getTagStatus 0 1000 1000 ≠ TagStatus.expired := by
  decide

/-- C1 (amended): full characterization of the classifier. It returns
`expired` iff `now > discardAt` (strictly); `expiring` iff
`0 ≤ discardAt − now < 31` minutes; `preparing` iff at least 31 minutes remain
and `now < readyAt`; `ready` otherwise.  The four outcomes are mutually
exclusive and exhaustive (the classifier is a total function), and the
discard-based verdicts take precedence over `preparing` even when
`discardAt < readyAt`. -/
theorem getTagStatus_characterization (r d n : Int) :
    (getTagStatus r d n = TagStatus.expired ↔ d < n)
    ∧ (getTagStatus r d n = TagStatus.expiring ↔ n ≤ d ∧ d - n < 31 * 60000)
    ∧ (getTagStatus r d n = TagStatus.preparing ↔ 31 * 60000 ≤ d - n ∧ n < r)
    ∧ (getTagStatus r d n = TagStatus.ready ↔ 31 * 60000 ≤ d - n ∧ r ≤ n) := by
  unfold getTagStatus differenceInMinutes
  simp only
  split_ifs with h1 h2 h3 <;>
    refine ⟨?_, ?_, ?_, ?_⟩ <;> simp_all <;> omega

/-- C2: for a RelativeMinutes (`hours`) policy the resolver returns
`readyAt = madeAt + readyOffsetMin` minutes and
`discardAt = madeAt + discardOffsetMin` minutes, and with
`0 ≤ readyOffsetMin ≤ discardOffsetMin` also `readyAt ≤ discardAt`.  The
resolver is a pure function, hence deterministic and side-effect free. -/
theorem calculateTimes_relativeMinutes (p : Product) (madeTime : Int)
    (hkind : p.timeType = TimeType.hours)
    (h0 : 0 ≤ p.readyTimeMinutes)
    (hrd : p.readyTimeMinutes ≤ p.discardTimeMinutes) :
    calculateTimes (some p) madeTime =
      some (madeTime + p.readyTimeMinutes * 60000,
            madeTime + p.discardTimeMinutes * 60000)
    ∧ madeTime + p.readyTimeMinutes * 60000
        ≤ madeTime + p.discardTimeMinutes * 60000 := by
  constructor
  · simp [calculateTimes, hkind, addMinutes]
  · omega

/-- C2 witness: the spec scenario `RelativeMinutes{60, 240}` at madeAt 0 gives
readyAt one hour later and discardAt four hours later. -/
theorem calculateTimes_relativeMinutes_witness :
    calculateTimes (some ⟨"p1", "Soup", TimeType.hours, 60, 240, none⟩) 0 =
      some ((0 : Int) + 60 * 60000, (0 : Int) + 240 * 60000)
    ∧ (0 : Int) + 60 * 60000 ≤ (0 : Int) + 240 * 60000 :=
  calculateTimes_relativeMinutes ⟨"p1", "Soup", TimeType.hours, 60, 240, none⟩ 0
    rfl (by decide) (by decide)

/-- C8 counterexample: a RelativeMinutes policy with negative offsets does not
make the resolver fail; `calculateTimes` happily returns instants before
`madeAt`. No `InvalidPolicy` error exists anywhere in the source. -/
theorem calculateTimes_negative_offsets_cex :
    calculateTimes (some ⟨"p2", "Bad", TimeType.hours, -5, -3, none⟩) 0 ≠ none
    ∧ calculateTimes (some ⟨"p2", "Bad", TimeType.hours, -5, -3, none⟩) 0 =
        some (-300000, -180000)
    ∧ handleSaveProductData ⟨0, -5, 0, -3, TimeType.hours, 0⟩ =
        ⟨-5, -3, TimeType.hours, 0⟩ := by
  refine ⟨?_, ?_, ?_⟩ <;> decide

/-- C8 (amended): the resolver has no failure mode at all for RelativeMinutes
policies — negative offsets are accepted and produce ready/discard instants
before `madeAt`; product save (`handleSave`) performs no offset validation and
never blocks, storing whatever minute totals the form holds. -/
theorem calculateTimes_hours_total (p : Product) (madeTime : Int)
    (hkind : p.timeType = TimeType.hours) :
    calculateTimes (some p) madeTime =
      some (madeTime + p.readyTimeMinutes * 60000,
            madeTime + p.discardTimeMinutes * 60000) := by
  simp [calculateTimes, hkind, addMinutes]

/-- C8 amended-claim witness: the resolver succeeds on offsets −5/−3. -/
theorem calculateTimes_hours_total_witness :
    calculateTimes (some ⟨"p2", "Bad", TimeType.hours, -5, -3, none⟩) 0 =
      some ((0 : Int) + -5 * 60000, (0 : Int) + -3 * 60000) :=
  calculateTimes_hours_total ⟨"p2", "Bad", TimeType.hours, -5, -3, none⟩ 0 rfl

/-! ## Alert scheduler: data model and tick -/

/-- A persisted tag record; the fields the engine reads and mutates.  The
display-only joined fields (product name and similar) are omitted. -/
structure MRDTag where
  id : String
  productId : String
  locationId : String
  madeTime : Int
  readyTime : Int
  discardTime : Int
  status : String
  isPrinted : String
  updatedAt : Int
deriving DecidableEq

/-- A notification event.  The display-only fields (title, message, location
name, human time remaining) are omitted; identity, severity, the underlying
tag id, and the generation timestamp are kept. -/
structure NotificationData where
  id : String
  type : NotifType
  tagId : Option String
  productName : Option String
  timestamp : Int
deriving DecidableEq

/-- The per-tag body of the Dashboard's `checkForExpiringTags` loop: expired
(`minutesUntilDiscard ≤ 0`) pushes one critical event with id
`expired-` + tag id, expiring soon (`≤ 30`) pushes one warning event with id
`expiring-` + tag id, otherwise nothing. -/
def notificationsForTag (products : List Product) (now : Int) (tag : MRDTag) :
    List NotificationData :=
  let minutesUntilDiscard := differenceInMinutes tag.discardTime now
  let product := products.find? (fun p => p.id == tag.productId)
  if minutesUntilDiscard ≤ 0 then
    [{ id := "expired-" ++ tag.id, type := .critical, tagId := some tag.id,
       productName := product.map (fun p => p.name), timestamp := now }]
  else if minutesUntilDiscard ≤ 30 then
    [{ id := "expiring-" ++ tag.id, type := .warning, tagId := some tag.id,
       productName := product.map (fun p => p.name), timestamp := now }]
  else []

/-- The Dashboard's `checkForExpiringTags`: rebuilds the whole notification
list from the tags to check and replaces the previous list wholesale
(`setNotifications(newNotifications)`). -/
def checkForExpiringTags (tagsToCheck : List MRDTag) (products : List Product)
    (now : Int) : List NotificationData :=
  tagsToCheck.flatMap (notificationsForTag products now)

/-- The per-tag body of NotificationSystem's own `checkForExpiringTags`:
expired is the strict `isAfter(now, discardTime)`, ids use an underscore. -/
def nsNotificationsForTag (now : Int) (tag : MRDTag) : List NotificationData :=
  let minutesToDiscard := differenceInMinutes tag.discardTime now
  if tag.discardTime < now then
    [{ id := "expired_" ++ tag.id, type := .critical, tagId := none,
       productName := none, timestamp := now }]
  else if minutesToDiscard ≤ 30 then
    [{ id := "expiring_" ++ tag.id, type := .warning, tagId := none,
       productName := none, timestamp := now }]
  else []

/-- One tick of NotificationSystem's `checkForExpiringTags`: the fetch result
is the argument; on success the role/location filter is applied and the
notification list is rebuilt, on failure the `catch` block only logs and the
previous notification state is returned untouched. -/
def nsTick (fetchResult : Except String (List MRDTag))
    (kitchenLocation : Option String) (now : Int)
    (prev : List NotificationData) : List NotificationData :=
  match fetchResult with
  | .error _ => prev
  | .ok tagsData =>
    let tagsData : List MRDTag :=
      match kitchenLocation with
      | some locId => tagsData.filter (fun t => t.locationId == locId)
      | none => tagsData
    tagsData.flatMap (nsNotificationsForTag now)

/-- The front-selection effect shared by both NotificationSystem variants:
`criticalNotifications[0] || warningNotifications[0]`. -/
def selectFront (notifications : List NotificationData) :
    Option NotificationData :=
  (notifications.filter (fun n => n.type == NotifType.critical)).head? <|>
    (notifications.filter (fun n => n.type == NotifType.warning)).head?

/-- One run of the front-selection effect: returns the new current
notification and whether the escalation sound is played.  The current
notification changes only when the selected front has a different id than the
one displayed; the sound plays exactly in that branch when the newcomer is
critical. -/
def notifStep (notifications : List NotificationData)
    (current : Option NotificationData) : Option NotificationData × Bool :=
  match selectFront notifications with
  | some next =>
      if current.map (fun c => c.id) = some next.id then (current, false)
      else (some next, next.type == NotifType.critical)
  | none => (none, false)

/-- `handleDismiss` / `handleNotificationDismiss`: remove the event with the
given id from the live list. -/
def handleNotificationDismiss (id : String)
    (notifications : List NotificationData) : List NotificationData :=
  notifications.filter (fun n => n.id ≠ id)

/-- The Dashboard's `handleNotificationMarkAsHandled`: look the event up by
id; if it carries a tag id and is critical, update that tag's row to
`status = discarded` with a fresh `updatedAt`; then dismiss the event.
Returns the new live list and the new tag store. -/
def handleNotificationMarkAsHandled (id : String)
    (notifications : List NotificationData) (tags : List MRDTag) (now : Int) :
    List NotificationData × List MRDTag :=
  let tags' :=
    match notifications.find? (fun n => n.id == id) with
    | some n =>
      match n.tagId with
      | some tid =>
          if n.type == NotifType.critical then
            tags.map (fun t =>
              if t.id == tid then
                { t with status := "discarded", updatedAt := now }
              else t)
          else tags
      | none => tags
    | none => tags
  (handleNotificationDismiss id notifications, tags')

/-- `handleDiscardTag` from ActiveTagsDashboard: set the row's status to
discarded and refresh `updatedAt`. -/
def handleDiscardTag (tagId : String) (tags : List MRDTag) (now : Int) :
    List MRDTag :=
  tags.map (fun t =>
    if t.id == tagId then { t with status := "discarded", updatedAt := now }
    else t)

/-- `handlePrint` from CreateTag: set the row's printed flag to "1". -/
def handlePrint (tagId : String) (tags : List MRDTag) : List MRDTag :=
  tags.map (fun t => if t.id == tagId then { t with isPrinted := "1" } else t)

/-! ## Helper lemmas -/

/-- The head of a filtered list is the first element satisfying the
predicate. -/
theorem head_filter_eq_find (p : NotificationData → Bool)
    (l : List NotificationData) : (l.filter p).head? = l.find? p := by
  induction l with
  | nil => rfl
  | cons a l ih =>
      by_cases h : p a <;> simp [List.filter_cons, List.find?_cons, h, ih]

/-- String append is left-cancellative. -/
theorem string_append_left_cancel {s t u : String}
    (h : s ++ t = s ++ u) : t = u := by
  have hd : s.data ++ t.data = s.data ++ u.data := by
    have := congrArg String.data h
    simpa using this
  cases t
  cases u
  simp only [List.append_cancel_left_eq] at hd
  rw [hd]

/-- The front selection equals first-critical-in-list-order, else
first-warning-in-list-order. -/
theorem selectFront_eq_find (l : List NotificationData) :
    selectFront l = ((l.find? (fun n => n.type == NotifType.critical)) <|>
      (l.find? (fun n => n.type == NotifType.warning))) := by
  simp [selectFront, head_filter_eq_find]

/-- Step unfolding: no live notification selects nothing and stays silent. -/
theorem notifStep_none (notifications : List NotificationData)
    (current : Option NotificationData)
    (h : selectFront notifications = none) :
    notifStep notifications current = (none, false) := by
  simp [notifStep, h]

/-- Step unfolding: when the selected front has the id already displayed,
nothing changes and no sound plays. -/
theorem notifStep_keep (notifications : List NotificationData)
    (current : Option NotificationData) (next : NotificationData)
    (h : selectFront notifications = some next)
    (hcur : current.map (fun c => c.id) = some next.id) :
    notifStep notifications current = (current, false) := by
  simp [notifStep, h, hcur]

/-- Step unfolding: when the selected front has a new id, it becomes current
and the sound plays exactly if it is critical. -/
theorem notifStep_change (notifications : List NotificationData)
    (current : Option NotificationData) (next : NotificationData)
    (h : selectFront notifications = some next)
    (hcur : ¬ current.map (fun c => c.id) = some next.id) :
    notifStep notifications current =
      (some next, next.type == NotifType.critical) := by
  simp [notifStep, h, hcur]

/-- A sample warning event, as generated for a tag `t1` in the expiring
window. -/
def wEx : NotificationData :=
  { id := "expiring-t1", type := .warning, tagId := some "t1",
    productName := none, timestamp := 0 }

/-- A sample critical event, as generated for an expired tag `t2`. -/
def cEx : NotificationData :=
  { id := "expired-t2", type := .critical, tagId := some "t2",
    productName := none, timestamp := 0 }

/-- A second sample critical event, for an expired tag `t0` that sorts ahead
of `t2` in the fetched list. -/
def c0Ex : NotificationData :=
  { id := "expired-t0", type := .critical, tagId := some "t0",
    productName := none, timestamp := 0 }

/-! ## Claims about front selection and escalation -/

/-- C3: the current notification is a single optional value (at most one at a
time, by type); after the selection effect runs, it carries the id and
severity of the first event of the highest live severity in list order, so
whenever any critical event is live the current notification is critical and
no warning is displayed.  The hypothesis states the reachable-state invariant
that the previously displayed event's id determines its severity consistently
with the live list (event ids embed their condition kind). -/
theorem notifStep_priority (notifications : List NotificationData)
    (current : Option NotificationData)
    (hwf : ∀ n ∈ notifications, ∀ c, current = some c → n.id = c.id →
      n.type = c.type) :
    ∀ m, (notifStep notifications current).1 = some m →
      ∃ h, ((notifications.find? (fun n => n.type == NotifType.critical)) <|>
            (notifications.find? (fun n => n.type == NotifType.warning)))
            = some h
        ∧ m.id = h.id ∧ m.type = h.type
        ∧ ((∃ n ∈ notifications, n.type = NotifType.critical) →
            m.type = NotifType.critical) := by
  intro m hm
  rcases hsel : selectFront notifications with _ | next
  · rw [notifStep_none notifications current hsel] at hm
    simp at hm
  · have hfind := hsel
    rw [selectFront_eq_find] at hfind
    have hnext : next ∈ notifications := by
      rcases hc : notifications.find? (fun n => n.type == NotifType.critical)
        with _ | c
      · rw [hc] at hfind
        simp at hfind
        exact List.mem_of_find?_eq_some hfind
      · rw [hc] at hfind
        simp at hfind
        subst hfind
        exact List.mem_of_find?_eq_some hc
    have hmid : m.id = next.id ∧ m.type = next.type := by
      by_cases hcur : current.map (fun c => c.id) = some next.id
      · rw [notifStep_keep notifications current next hsel hcur] at hm
        rcases current with _ | c
        · simp at hcur
        · simp only at hm
          simp at hm hcur
          subst hm
          exact ⟨hcur, (hwf next hnext _ rfl hcur.symm).symm⟩
      · rw [notifStep_change notifications current next hsel hcur] at hm
        simp at hm
        subst hm
        exact ⟨rfl, rfl⟩
    refine ⟨next, hfind, hmid.1, hmid.2, ?_⟩
    rintro ⟨n, hn, hcritn⟩
    rcases hc : notifications.find? (fun x => x.type == NotifType.critical)
      with _ | c
    · have hnone := List.find?_eq_none.mp hc n hn
      simp [hcritn] at hnone
    · rw [hc] at hfind
      simp at hfind
      subst hfind
      have hct := List.find?_some hc
      simp at hct
      rw [hmid.2, hct]

/-- C3 witness: with a warning and a critical live and nothing displayed yet,
the effect selects the critical event. -/
theorem notifStep_priority_witness :
    ∃ h, (([wEx, cEx].find? (fun n => n.type == NotifType.critical)) <|>
          ([wEx, cEx].find? (fun n => n.type == NotifType.warning))) = some h
      ∧ cEx.id = h.id ∧ cEx.type = h.type
      ∧ ((∃ n ∈ [wEx, cEx], n.type = NotifType.critical) →
          cEx.type = NotifType.critical) :=
  notifStep_priority [wEx, cEx] none
    (by intro n _ c hc; cases hc) cEx (by decide)

/-- C4 counterexample: the escalation sound is not played exactly once per
raise.  The critical event `cEx` is raised at step 1 (front changes to it,
sound plays), stays live and is never dismissed; at step 2 a more urgent
critical `c0Ex` takes the front (sound for its own raise); at step 3 `c0Ex`
is dismissed and `cEx` regains the front — and the sound plays a second time
for `cEx`'s single raise. -/
theorem sound_replay_cex :
    (notifStep [cEx] none).1 = some cEx ∧ (notifStep [cEx] none).2 = true
    ∧ (notifStep [c0Ex, cEx] (some cEx)).1 = some c0Ex
    ∧ (notifStep [c0Ex, cEx] (some cEx)).2 = true
    ∧ (notifStep [cEx] (some c0Ex)).1 = some cEx
    ∧ (notifStep [cEx] (some c0Ex)).2 = true := by
  decide

/-- C4 (amended): the escalation sound plays exactly when the selected front
event is critical and its id differs from the one currently displayed.  In
particular a critical event that stays in front does not replay on subsequent
ticks, but the same raise of a critical condition triggers the sound again
whenever it regains the front (for instance after a higher-priority critical
is dismissed). -/
theorem notifStep_sound_iff (notifications : List NotificationData)
    (current : Option NotificationData) :
    (notifStep notifications current).2 = true ↔
      ∃ next, selectFront notifications = some next
        ∧ next.type = NotifType.critical
        ∧ current.map (fun c => c.id) ≠ some next.id := by
  rcases hsel : selectFront notifications with _ | next
  · simp [notifStep_none notifications current hsel, hsel]
  · by_cases hcur : current.map (fun c => c.id) = some next.id
    · simp [notifStep_keep notifications current next hsel hcur, hsel, hcur]
    · rw [notifStep_change notifications current next hsel hcur]
      simp only [hsel]
      constructor
      · intro h
        exact ⟨next, rfl, by simpa using h, hcur⟩
      · rintro ⟨n, hn, hcrit, _⟩
        simp at hn
        subst hn
        simp [hcrit]

/-! ## Claims about the tick, dismissal and acknowledgment -/

/-- A sample active tag whose discard instant is the epoch. -/
def tagEx : MRDTag :=
  { id := "t1", productId := "p1", locationId := "l1", madeTime := 0,
    readyTime := 0, discardTime := 0, status := "active", isPrinted := "0",
    updatedAt := 0 }

/-- A second sample active tag, also expired at the epoch. -/
def tag2Ex : MRDTag :=
  { id := "t2", productId := "p1", locationId := "l1", madeTime := 0,
    readyTime := 0, discardTime := 0, status := "active", isPrinted := "0",
    updatedAt := 0 }

/-- C5 counterexample: ticks do not diff against the previous tick's sets.
At the first tick the expired tag raises a critical event; the operator
dismisses it, emptying the live list; at the next tick, with the condition
still present, `checkForExpiringTags` wholesale rebuilds the list and the
dismissed condition is raised again under the same stable id — refuting "an
event dismissed by the operator ... is not raised again while the underlying
condition persists". -/
theorem dismissed_event_reraised_cex :
    (checkForExpiringTags [tagEx] [] 60000).map (fun e => e.id) =
      ["expired-t1"]
    ∧ handleNotificationDismiss "expired-t1"
        (checkForExpiringTags [tagEx] [] 60000) = []
    ∧ (checkForExpiringTags [tagEx] [] 90000).map (fun e => e.id) =
        ["expired-t1"] := by
  decide

/-- C5 (amended): each tick rebuilds the notification list wholesale from the
fetched tag set — the output never depends on the previous tick's events or
on past dismissals — and for a tag whose expired condition persists, the
event is regenerated with the same stable id on every tick, so a dismissal
only lasts until the next tick. -/
theorem tick_rebuilds_and_reraises (t : MRDTag) (products : List Product)
    (now now' : Int)
    (h : differenceInMinutes t.discardTime now ≤ 0)
    (h' : differenceInMinutes t.discardTime now' ≤ 0) :
    (∃ e ∈ checkForExpiringTags [t] products now,
        e.id = "expired-" ++ t.id ∧ e.type = NotifType.critical)
    ∧ handleNotificationDismiss ("expired-" ++ t.id)
        (checkForExpiringTags [t] products now) = []
    ∧ (∃ e' ∈ checkForExpiringTags [t] products now',
        e'.id = "expired-" ++ t.id) := by
  refine ⟨?_, ?_, ?_⟩
  · simp [checkForExpiringTags, notificationsForTag, h]
  · simp [checkForExpiringTags, notificationsForTag, h,
      handleNotificationDismiss]
  · simp [checkForExpiringTags, notificationsForTag, h']

/-- C5 amended-claim witness: the concrete expired tag regenerates the same
event id after a dismissal. -/
theorem tick_rebuilds_and_reraises_witness :
    (∃ e ∈ checkForExpiringTags [tagEx] [] 60000,
        e.id = "expired-" ++ tagEx.id ∧ e.type = NotifType.critical)
    ∧ handleNotificationDismiss ("expired-" ++ tagEx.id)
        (checkForExpiringTags [tagEx] [] 60000) = []
    ∧ (∃ e' ∈ checkForExpiringTags [tagEx] [] 90000,
        e'.id = "expired-" ++ tagEx.id) :=
  tick_rebuilds_and_reraises tagEx [] 60000 90000 (by decide) (by decide)

/-- C6: when the fetch of the active-tag set fails, the tick's `catch` block
only logs the error and returns the previous live event set untouched; no
events are added, removed or modified and the recurring interval is not
cancelled, so the scheduler retries on the next tick. -/
theorem nsTick_fetch_failure (e : String) (kitchenLocation : Option String)
    (now : Int) (prev : List NotificationData) :
    nsTick (Except.error e) kitchenLocation now prev = prev := rfl

/-- C7: acknowledging a live event removes every event with its id from the
live list; if the event is critical and carries a tag id, the matching tag
rows are updated to `status = discarded` (with a fresh `updatedAt`) while all
other rows are untouched; if the event is a warning, the tag store is
returned completely unchanged. -/
theorem acknowledge_spec (id : String)
    (notifications : List NotificationData) (tags : List MRDTag) (now : Int)
    (n : NotificationData)
    (hfind : notifications.find? (fun x => x.id == id) = some n) :
    (∀ m ∈ (handleNotificationMarkAsHandled id notifications tags now).1,
        m.id ≠ id)
    ∧ (n.type = NotifType.warning →
        (handleNotificationMarkAsHandled id notifications tags now).2 = tags)
    ∧ (∀ tid, n.type = NotifType.critical → n.tagId = some tid →
        (∀ t ∈ tags, t.id = tid →
          ({ t with status := "discarded", updatedAt := now } : MRDTag) ∈
            (handleNotificationMarkAsHandled id notifications tags now).2)
        ∧ (∀ t ∈ tags, t.id ≠ tid →
            t ∈ (handleNotificationMarkAsHandled id notifications tags
              now).2)) := by
  refine ⟨?_, ?_, ?_⟩
  · intro m hm
    have : m ∈ notifications.filter (fun x => x.id ≠ id) := by
      simpa [handleNotificationMarkAsHandled, handleNotificationDismiss]
        using hm
    simp [List.mem_filter] at this
    exact this.2
  · intro hw
    rcases htid : n.tagId with _ | tid
    · simp [handleNotificationMarkAsHandled, hfind, htid]
    · simp [handleNotificationMarkAsHandled, hfind, htid, hw]
  · intro tid hc htid
    constructor
    · intro t ht hid
      simp only [handleNotificationMarkAsHandled, hfind, htid, hc]
      simp only [beq_self_eq_true, if_true]
      exact List.mem_map.mpr ⟨t, ht, by simp [hid]⟩
    · intro t ht hid
      simp only [handleNotificationMarkAsHandled, hfind, htid, hc]
      simp only [beq_self_eq_true, if_true]
      exact List.mem_map.mpr ⟨t, ht, by simp [hid]⟩

/-- C7 witness: acknowledging the critical event for tag `t2` removes it from
the live list and discards tag `t2` while a warning acknowledgment leaves the
store alone. -/
theorem acknowledge_spec_witness :
    (∀ m ∈ (handleNotificationMarkAsHandled "expired-t2" [cEx] [tag2Ex]
        5).1, m.id ≠ "expired-t2")
    ∧ (cEx.type = NotifType.warning →
        (handleNotificationMarkAsHandled "expired-t2" [cEx] [tag2Ex] 5).2 =
          [tag2Ex])
    ∧ (∀ tid, cEx.type = NotifType.critical → cEx.tagId = some tid →
        (∀ t ∈ [tag2Ex], t.id = tid →
          ({ t with status := "discarded", updatedAt := 5 } : MRDTag) ∈
            (handleNotificationMarkAsHandled "expired-t2" [cEx] [tag2Ex]
              5).2)
        ∧ (∀ t ∈ [tag2Ex], t.id ≠ tid →
            t ∈ (handleNotificationMarkAsHandled "expired-t2" [cEx] [tag2Ex]
              5).2)) :=
  acknowledge_spec "expired-t2" [cEx] [tag2Ex] 5 cEx (by decide)

/-- Each tag contributes at most one event per tick: the expired and
expiring-soon branches are mutually exclusive. -/
theorem notificationsForTag_length_le_one (products : List Product)
    (now : Int) (t : MRDTag) :
    (notificationsForTag products now t).length ≤ 1 := by
  simp only [notificationsForTag]
  split_ifs <;> simp

/-- C9: on a single tick every active tag contributes at most one event, and
event identity is the deterministic function condition-kind + tag id.  Two
distinct tags both expired on the same tick yield exactly two critical
events with distinct stable ids, and acknowledging the first leaves the
second in the live set. -/
theorem two_expired_tags_spec (t1 t2 : MRDTag) (products : List Product)
    (now now2 : Int)
    (hne : t1.id ≠ t2.id)
    (h1 : differenceInMinutes t1.discardTime now ≤ 0)
    (h2 : differenceInMinutes t2.discardTime now ≤ 0) :
    (∀ tags : List MRDTag,
        (checkForExpiringTags tags products now).length ≤ tags.length)
    ∧ ∃ e1 e2, checkForExpiringTags [t1, t2] products now = [e1, e2]
        ∧ e1.type = NotifType.critical ∧ e2.type = NotifType.critical
        ∧ e1.id ≠ e2.id
        ∧ e2 ∈ (handleNotificationMarkAsHandled e1.id
            (checkForExpiringTags [t1, t2] products now) [t1, t2] now2).1 := by
  constructor
  · intro tags
    induction tags with
    | nil => simp [checkForExpiringTags]
    | cons a l ih =>
        have ha := notificationsForTag_length_le_one products now a
        simp only [checkForExpiringTags, List.flatMap_cons,
          List.length_append, List.length_cons] at ih ⊢
        omega
  · have hev : checkForExpiringTags [t1, t2] products now =
        [{ id := "expired-" ++ t1.id, type := .critical,
           tagId := some t1.id,
           productName := (products.find? (fun p => p.id == t1.productId)).map
             (fun p => p.name), timestamp := now },
         { id := "expired-" ++ t2.id, type := .critical,
           tagId := some t2.id,
           productName := (products.find? (fun p => p.id == t2.productId)).map
             (fun p => p.name), timestamp := now }] := by
      simp [checkForExpiringTags, notificationsForTag, h1, h2]
    refine ⟨_, _, hev, rfl, rfl, ?_, ?_⟩
    · intro heq
      exact hne (string_append_left_cancel heq)
    · have hne' : ("expired-" ++ t2.id : String) ≠ "expired-" ++ t1.id := by
        intro heq
        exact hne (string_append_left_cancel heq).symm
      simp [handleNotificationMarkAsHandled, handleNotificationDismiss, hev,
        hne']

/-- C9 witness: the two concrete expired tags `t1`, `t2` at the same tick. -/
theorem two_expired_tags_spec_witness :
    (∀ tags : List MRDTag,
        (checkForExpiringTags tags [] 60000).length ≤ tags.length)
    ∧ ∃ e1 e2, checkForExpiringTags [tagEx, tag2Ex] [] 60000 = [e1, e2]
        ∧ e1.type = NotifType.critical ∧ e2.type = NotifType.critical
        ∧ e1.id ≠ e2.id
        ∧ e2 ∈ (handleNotificationMarkAsHandled e1.id
            (checkForExpiringTags [tagEx, tag2Ex] [] 60000) [tagEx, tag2Ex]
            70000).1 :=
  two_expired_tags_spec tagEx tag2Ex [] 60000 70000 (by decide) (by decide)
    (by decide)

/-- The tag fields frozen at creation: identity, foreign keys and the three
policy instants. -/
def frozenFields (t : MRDTag) : String × String × String × Int × Int × Int :=
  (t.id, t.productId, t.locationId, t.madeTime, t.readyTime, t.discardTime)

/-- C10: none of the post-creation mutations — discarding a tag, marking it
printed, acknowledging an alert — rewrites `madeAt`, `readyAt`, `discardAt`
or any identity field; they only touch the lifecycle status, the printed
flag and `updatedAt`. -/
theorem post_creation_mutations_frame (tagId nid : String)
    (tags : List MRDTag) (now now2 : Int)
    (notifications : List NotificationData) :
    (handleDiscardTag tagId tags now).map frozenFields = tags.map frozenFields
    ∧ (handlePrint tagId tags).map frozenFields = tags.map frozenFields
    ∧ ((handleNotificationMarkAsHandled nid notifications tags now2).2).map
        frozenFields = tags.map frozenFields := by
  have hmap : ∀ (f : MRDTag → MRDTag),
      (∀ t, frozenFields (f t) = frozenFields t) →
      ∀ l : List MRDTag, (l.map f).map frozenFields = l.map frozenFields := by
    intro f hf l
    rw [List.map_map]
    exact List.map_congr_left (fun t _ => hf t)
  refine ⟨?_, ?_, ?_⟩
  · exact hmap _ (fun t => by unfold frozenFields; split_ifs <;> rfl) tags
  · exact hmap _ (fun t => by unfold frozenFields; split_ifs <;> rfl) tags
  · rcases hf : notifications.find? (fun n => n.id == nid) with _ | n
    · simp [handleNotificationMarkAsHandled, hf]
    · rcases ht : n.tagId with _ | tid
      · simp [handleNotificationMarkAsHandled, hf, ht]
      · by_cases hc : (n.type == NotifType.critical) = true
        · simp only [handleNotificationMarkAsHandled, hf, ht, hc, if_true]
          exact hmap _ (fun t => by simp only [frozenFields]; split_ifs <;>
            rfl) tags
        · simp [handleNotificationMarkAsHandled, hf, ht, hc]

end Mrd
